import Mathlib

/-!
# Verification of the `State-Machines` event-driven FSM engine

Shallow embedding of `StateMachines/sm.py` (classes `Event`, `State`,
`Transition`, `StateMachine`) and of the state-instantiation step of
`StateMachines/decorator.py` (`statemachine.__init__`).

Modelling conventions, chosen to mirror Python 2 semantics:

* Python objects are identified by an allocation id (`objId`); references
  between objects (a transition's `to_state`, the machine's
  `_sm_current_state`) are stored as ids and dereferenced through the
  machine's state list, so that mutation of a shared `State` object is
  visible through every reference, as in Python.
* Optional/keyword slots (`enter`, `leave`, `action`, `guard`, `to`) hold a
  `PyVal`; `kwargs.get(k)` yields `PyVal.none` when the keyword is absent.
  Python truthiness (`if x:`) is `truthy`, `callable(x)` is `isCallable`.
* Calling a value appends the callback's id to an execution trace; calling a
  non-callable raises `TypeError`, and a callback whose `throws` flag is set
  raises after being entered, exactly like a Python callback that raises.
  Guard calls are modelled as pure boolean functions of the event (none of
  the verified claims involves a raising guard).
* Each operation that can raise returns the mutated machine, the trace of
  callbacks that ran, and either a normal result or the raised error, so
  that statements about "what ran" and "what the machine looks like after an
  uncaught exception" are directly expressible.
* `isinstance(event, transition.event_type)` is modelled by giving each
  event the list `mro` of (ids of) classes it is an instance of, its own
  class `cls` being a member; `event.match(transition)` is a function of the
  transition's stored positional `args`, which is the data the test-suite's
  `match` implementations consult.
* In `StateMachine.__init__` the attributes actually assigned are
  `_sm_call_actions_from_reset` / `_from_suspend` / `_from_resume`, while
  `reset` / `suspend` / `resume` read `_sm_call_actions_on_reset` /
  `_on_suspend` / `_on_resume`.  The latter are never assigned anywhere in
  the repository, so those reads raise `AttributeError`.  They are modelled
  as `Option Bool` fields that `StateMachine.init` leaves at `none`
  (attribute not present; a later assignment by application code would make
  them `some b`), and reading `none` raises.
* `raise StateNotFound` in `transitions_from` / `transitions_to` /
  `transitions_between` refers to a name that is never defined in `sm.py`
  (the module has no imports and defines no such class), so Python raises
  `NameError` at the `raise` statement; this is `PyErr.nameError
  "StateNotFound"`.
-/

namespace PySM

/-- Errors/exceptions observable from the embedded operations. -/
inductive PyErr where
  /-- `StateUnknown` from `sm.py`. -/
  | stateUnknown : PyErr
  /-- `StateAlreadyExists` from `sm.py`. -/
  | stateAlreadyExists : PyErr
  /-- `TransitionBadAction` from `sm.py`. -/
  | transitionBadAction : PyErr
  /-- `TransitionBadGuard` from `sm.py`. -/
  | transitionBadGuard : PyErr
  /-- Python `NameError`: the raised name is not defined in the module. -/
  | nameError (missing : String) : PyErr
  /-- Python `AttributeError`: reading an attribute that was never assigned. -/
  | attributeError (attr : String) : PyErr
  /-- Python `TypeError`: calling a value that is not callable. -/
  | typeErrorNotCallable : PyErr
  /-- An exception raised from inside a user callback (identified by id). -/
  | callbackExc (id : Nat) : PyErr
  /-- A truthy non-`State` destination was installed by hand; `process_event`
  would assign it to `_sm_current_state` and then fail reading `.enter` on it.
  Unreachable for machines built through the `add_state`/`add_transition`
  API (see the destination invariant, claim C10). -/
  | danglingStateRef : PyErr
  deriving DecidableEq, Repr

/-- Opaque positional match-argument data (`transition.args` entries). -/
inductive Arg where
  | int (n : Int) : Arg
  | str (s : String) : Arg
  deriving DecidableEq, Repr

/-- An event, as `State.get_transition` observes it: `mro` is the list of
(ids of) classes the event is an instance of (so `isinstance(event, C)` is
`mro.contains C`), `cls` is its exact class (the spec's "kind"), and
`matchFn` is the behaviour of its `match` method as a function of the
transition's stored positional `args`. -/
structure Event where
  cls : Nat
  mro : List Nat
  matchFn : List Arg → Bool

/-- A Python callable stored in a callback/guard slot: `id` identifies it in
execution traces, `throws` says whether invoking it raises, and `ret` is its
boolean result when it is used as a guard. -/
structure Cb where
  id : Nat
  throws : Bool
  ret : Event → Bool

/-- A Python value that can sit in one of the optional slots
(`enter`/`leave`/`action`/`guard`/`to`).  `stateObj i o nm` is a reference
to a `State` object with allocation id `i`, canonical-origin id `o` and name
`nm` (the latter two are immutable once the object is built, so the
reference carries a faithful snapshot of them). -/
inductive PyVal where
  | none : PyVal
  | int (n : Int) : PyVal
  | str (s : String) : PyVal
  | stateObj (objId original : Nat) (name : String) : PyVal
  | cb (c : Cb) : PyVal

/-- Python truthiness of a slot value (`if x:`). -/
def truthy : PyVal → Bool
  | .none => false
  | .int n => n != 0
  | .str s => s ≠ ""
  | .stateObj _ _ _ => true
  | .cb _ => true

/-- Python `callable(x)` for slot values. -/
def isCallable : PyVal → Bool
  | .cb _ => true
  | _ => false

/-- Is the value a `State` instance (`isinstance(x, State)`)? -/
def isStateObj : PyVal → Bool
  | .stateObj _ _ _ => true
  | _ => false

/-- Calling a slot value as a guard: `transition.guard(event)`.  Only ever
invoked under a `callable` test in the source. -/
def guardApply (v : PyVal) (e : Event) : Bool :=
  match v with
  | .cb c => c.ret e
  | _ => false

/-- Calling a slot value as a zero/one-argument callback (`x()` or
`x(event)`): the trace of callback ids entered, and the raised error if any.
Calling a non-callable raises `TypeError`; a callback with `throws` set is
entered (appears in the trace) and then raises. -/
def callValue : PyVal → List Nat × Option PyErr
  | .cb c => ([c.id], if c.throws then some (.callbackExc c.id) else Option.none)
  | _ => ([], some .typeErrorNotCallable)

/-- Trace produced by a *successful* run of an optional enter/leave slot
guarded by truthiness (`if x: x()`): the callback's id if one is present. -/
def cbTrace : PyVal → List Nat
  | .cb c => [c.id]
  | _ => []

/-- `okCb v` says a truthiness-guarded callback slot runs without raising:
either nothing is there, or a non-throwing callable is. -/
def okCb : PyVal → Bool
  | .none => true
  | .cb c => !c.throws
  | _ => false

/-- `okAct v` says a `callable`-guarded slot (`if callable(x): x(event)`)
runs without raising: anything non-callable is silently skipped, a callable
must not throw. -/
def okAct : PyVal → Bool
  | .cb c => !c.throws
  | _ => true

/-- A transition (`Transition.__init__` stores exactly these fields; the
`state` back-pointer set by `State._add_transition` is never consulted by
any embedded operation and is omitted). -/
structure Transition where
  event_type : Nat
  args : List Arg
  guard : PyVal
  action : PyVal
  to_state : PyVal

/-- A state (`State.__init__`).  `objId` is the object's allocation id;
`original` is the allocation id of its canonical-origin object (`self` for a
freshly built state).  Note that in the source the assignments
`self.enter = enter` / `self.leave = leave` shadow the methods of the same
name defined on the class, so `s.enter` / `s.leave` denote these stored
values at every call site.  The `state_machine` back-pointer set by
`add_state` is never consulted by any verified operation and is omitted. -/
structure State where
  objId : Nat
  name : String
  enter : PyVal
  leave : PyVal
  original : Nat
  transitions : List Transition

/-- `State.__init__(name, enter, leave)` for a fresh object with id `i`:
the new state is its own canonical origin. -/
def State.init (i : Nat) (name : String) (enter leave : PyVal) : State :=
  { objId := i, name := name, enter := enter, leave := leave,
    original := i, transitions := [] }

/-- `State.__eq__`: states are equal iff they have the same `original`
object (compared by object identity, here by its id).  The `if not other:
return False` branch of the source only concerns a `None`/falsy argument,
which cannot be another state. -/
def State.eq (a b : State) : Bool :=
  a.original == b.original

/-- `State.__eq__` against a state reference value. -/
def State.eqVal (a : State) (v : PyVal) : Bool :=
  match v with
  | .stateObj _ o _ => a.original == o
  | _ => false

/-- The state-instantiation step of `statemachine.__init__`
(`decorator.py` lines 312-314): `my_state = copy.deepcopy(original);
my_state.original = original` — a structural copy under a fresh object id
whose canonical origin is the template object itself. -/
def instantiateState (template : State) (freshId : Nat) : State :=
  { template with objId := freshId, original := template.objId }

/-- A state reference value denoting a given state object. -/
def stateRef (s : State) : PyVal :=
  .stateObj s.objId s.original s.name

/-- The scan of `State.get_transition` over the transition list: event-type
`isinstance` test, then `event.match(transition)`, then the guard if one is
callable; a failing guard `continue`s with the rest of the list. -/
def getTransitionAux (e : Event) : List Transition → Option Transition
  | [] => Option.none
  | t :: rest =>
    cond (e.mro.contains t.event_type && e.matchFn t.args)
      (cond (isCallable t.guard)
        (cond (guardApply t.guard e) (some t) (getTransitionAux e rest))
        (some t))
      (getTransitionAux e rest)

/-- `State.get_transition(event)`. -/
def State.get_transition (s : State) (e : Event) : Option Transition :=
  getTransitionAux e s.transitions

/-- `Transition.__init__(event_type, *args, **kwargs)`: extract `action`,
`guard` and `to` from the keyword arguments (absent keywords are
`PyVal.none`) and run the sanity checks, each guarded by truthiness of the
supplied value. -/
def Transition.build (event_type : Nat) (args : List Arg)
    (kwTo kwAction kwGuard : PyVal) : Except PyErr Transition :=
  if truthy kwTo && !isStateObj kwTo then
    .error .stateUnknown
  else if truthy kwAction && !isCallable kwAction then
    .error .transitionBadAction
  else if truthy kwGuard && !isCallable kwGuard then
    .error .transitionBadGuard
  else
    .ok { event_type := event_type, args := args, guard := kwGuard,
          action := kwAction, to_state := kwTo }

/-- The `StateMachine` instance state.  `currentId`/`startId` hold the
object id of the referenced state (Python stores object references;
`None` is `Option.none`).  `callActionsFromReset`/`Suspend`/`Resume` are the
attributes `__init__` actually assigns; `onReset`/`onSuspend`/`onResume`
model the (distinct) attributes `_sm_call_actions_on_*` that
`reset`/`suspend`/`resume` read: `none` means the attribute was never
assigned, so reading it raises `AttributeError`.  `nextId` is the allocator
for object ids. -/
structure StateMachine where
  states : List State
  currentId : Option Nat
  startId : Option Nat
  active : Bool
  callActionsFromReset : Bool
  callActionsFromSuspend : Bool
  callActionsFromResume : Bool
  onReset : Option Bool
  onSuspend : Option Bool
  onResume : Option Bool
  nextId : Nat

/-- `StateMachine.__init__(active, call_actions)`. -/
def StateMachine.init (active call_actions : Bool) : StateMachine :=
  { states := [], currentId := Option.none, startId := Option.none,
    active := active,
    callActionsFromReset := call_actions,
    callActionsFromSuspend := call_actions,
    callActionsFromResume := call_actions,
    onReset := Option.none, onSuspend := Option.none, onResume := Option.none,
    nextId := 0 }

/-- The instance attributes assigned by `StateMachine.__init__` (`sm.py`
lines 302-309).  Any other attribute read on a fresh machine raises
`AttributeError`; in particular `reset`/`suspend`/`resume` read
`_sm_call_actions_on_reset`/`_on_suspend`/`_on_resume`, and
`statemachine.__init__` in `decorator.py` reads `states`, `start_state` and
`current_state` — none of which appear here. -/
def StateMachine.initAttrNames : List String :=
  ["_sm_states", "_sm_current_state", "_sm_start_state", "_sm_active",
   "_sm_call_actions_from_reset", "_sm_call_actions_from_suspend",
   "_sm_call_actions_from_resume"]

/-- Dereference a state object id against the machine's state list. -/
def lookupState (m : StateMachine) (i : Nat) : Option State :=
  m.states.find? (fun s => s.objId == i)

/-- The object `self._sm_current_state` refers to, if any. -/
def currentStateOf (m : StateMachine) : Option State :=
  match m.currentId with
  | Option.none => Option.none
  | some i => lookupState m i

/-- `StateMachine.find_state(name_or_string)`: a `State` argument is looked
up by `State.__eq__` (canonical-origin identity); anything else is compared
against the states' names (`s.name == name_or_string`, false for
non-strings). -/
def find_state (m : StateMachine) (ref : PyVal) : Option State :=
  if isStateObj ref then
    m.states.find? (fun s => State.eqVal s ref)
  else
    m.states.find? (fun s =>
      match ref with
      | .str nm => s.name == nm
      | _ => false)

/-- `StateMachine.add_state(name, enter, leave)`: refuse duplicate names,
build the state (its own canonical origin), make it start and current if it
is the first, and append it. -/
def add_state (m : StateMachine) (name : String) (enter leave : PyVal) :
    Except PyErr (StateMachine × State) :=
  if (find_state m (.str name)).isSome then
    .error .stateAlreadyExists
  else
    let st := State.init m.nextId name enter leave
    let m2 := if m.startId.isSome then m
              else { m with startId := some st.objId, currentId := some st.objId }
    .ok ({ m2 with states := m2.states ++ [st], nextId := m2.nextId + 1 }, st)

/-- Append a transition to the state with the given object id
(`State._add_transition`, which mutates the shared state object). -/
def appendTransition (m : StateMachine) (i : Nat) (t : Transition) :
    StateMachine :=
  { m with states := m.states.map (fun s =>
      if s.objId == i then { s with transitions := s.transitions ++ [t] } else s) }

/-- `StateMachine.add_transition(state, event_type, *args, **kwargs)`:
resolve the source (else `StateUnknown`); if the `to` keyword is truthy,
resolve it through `find_state` (else `StateUnknown`) and replace it by the
machine's own member state; then build the transition (which validates
destination/action/guard) and append it to the source state. -/
def add_transition (m : StateMachine) (srcRef : PyVal) (event_type : Nat)
    (args : List Arg) (kwTo kwAction kwGuard : PyVal) :
    Except PyErr (StateMachine × Transition) :=
  match find_state m srcRef with
  | Option.none => .error .stateUnknown
  | some from_state =>
    let resolvedTo : Except PyErr PyVal :=
      if truthy kwTo then
        match find_state m kwTo with
        | Option.none => .error .stateUnknown
        | some to_member => .ok (stateRef to_member)
      else .ok kwTo
    match resolvedTo with
    | .error e => .error e
    | .ok kwTo =>
      match Transition.build event_type args kwTo kwAction kwGuard with
      | .error e => .error e
      | .ok t => .ok (appendTransition m from_state.objId t, t)

/-- Does `transition.to_state == dest_state` hold?  Python `==` dispatches
to `State.__eq__` when `to_state` is a state, and yields `False` for
`None`/`""` (the falsy possibilities, via the `if not other` branch of the
reflected `State.__eq__`).  A truthy non-state destination would actually
raise `AttributeError` through the reflected `State.__eq__`; such a value
can only be planted by direct field assignment, never by the builder API
(the destination invariant of claim C10), and is not modelled. -/
def toDestMatch (t : Transition) (dest : State) : Bool :=
  match t.to_state with
  | .stateObj _ o _ => o == dest.original
  | _ => false

/-- The filter of `transitions_to`/`transitions_between`: an explicit
transition to `dest`, or a destination-less transition whose source is
`dest`. -/
def yieldsTo (src : State) (t : Transition) (dest : State) : Bool :=
  toDestMatch t dest || (!truthy t.to_state && State.eq src dest)

/-- `StateMachine.transitions_from(src_state)`.  The unresolved-state raise
names `StateNotFound`, a class that is never defined in the module, so
Python raises `NameError` there. -/
def transitions_from (m : StateMachine) (srcRef : PyVal) :
    Except PyErr (List Transition) :=
  match find_state m srcRef with
  | Option.none => .error (.nameError "StateNotFound")
  | some src => .ok src.transitions

/-- `StateMachine.transitions_to(dest_state)` (same `NameError` caveat). -/
def transitions_to (m : StateMachine) (destRef : PyVal) :
    Except PyErr (List Transition) :=
  match find_state m destRef with
  | Option.none => .error (.nameError "StateNotFound")
  | some dest =>
    .ok (m.states.flatMap (fun src =>
      src.transitions.filter (fun t => yieldsTo src t dest)))

/-- `StateMachine.transitions_between(src_state, dest_state)` (same
`NameError` caveat). -/
def transitions_between (m : StateMachine) (srcRef destRef : PyVal) :
    Except PyErr (List Transition) :=
  match find_state m srcRef with
  | Option.none => .error (.nameError "StateNotFound")
  | some src =>
    match find_state m destRef with
    | Option.none => .error (.nameError "StateNotFound")
    | some dest => .ok (src.transitions.filter (fun t => yieldsTo src t dest))

/-- Result of a lifecycle/dispatch operation: the machine after the call
(also after an uncaught exception), the callback ids that ran, and the
normal return value or the raised error. -/
def PyResult (α : Type) := StateMachine × List Nat × Except PyErr α

/-- `StateMachine.reset()` (`sm.py` lines 485-494).  The very first thing
the body does is read `self._sm_call_actions_on_reset`, an attribute that
`__init__` never assigns (it assigns `_sm_call_actions_from_reset`), so on
a machine that has not had the attribute patched in from outside the call
raises `AttributeError` immediately.  The `current != start` test uses
Python 2 default `!=` (no `__ne__` is defined), i.e. object identity.  The
leave/enter calls inside the branch are *unguarded* attribute calls
(`self._sm_current_state.leave()`), raising `TypeError` when the stored
callback slot is `None`. -/
def reset (m : StateMachine) : PyResult Unit :=
  match m.onReset with
  | Option.none => (m, [], .error (.attributeError "_sm_call_actions_on_reset"))
  | some car =>
    if car && m.active && (m.currentId != m.startId) then
      let m1 : StateMachine := { m with active := false }
      match currentStateOf m1 with
      | Option.none => (m1, [], .error (.attributeError "leave"))
      | some cur =>
        match callValue cur.leave with
        | (tr1, some e) => (m1, tr1, .error e)
        | (tr1, Option.none) =>
          let m2 : StateMachine := { m1 with currentId := m1.startId }
          match currentStateOf m2 with
          | Option.none => (m2, tr1, .error (.attributeError "enter"))
          | some st =>
            match callValue st.enter with
            | (tr2, some e) => (m2, tr1 ++ tr2, .error e)
            | (tr2, Option.none) =>
              ({ m2 with active := true }, tr1 ++ tr2, .ok ())
    else
      ({ m with currentId := m.startId }, [], .ok ())

/-- `StateMachine.suspend()` (`sm.py` lines 503-507).  Reads the never-
assigned attribute `_sm_call_actions_on_suspend` first (AttributeError on an
unpatched machine).  Note the guard of the action branch is
`... and not self._sm_active`, i.e. it fires only on an *inactive* machine,
contrary to the method's own docstring. -/
def suspend (m : StateMachine) : PyResult Unit :=
  match m.onSuspend with
  | Option.none => (m, [], .error (.attributeError "_sm_call_actions_on_suspend"))
  | some cas =>
    if cas && !m.active then
      let m1 : StateMachine := { m with active := false }
      match currentStateOf m1 with
      | Option.none => (m1, [], .error (.attributeError "leave"))
      | some cur =>
        match callValue cur.leave with
        | (tr1, some e) => (m1, tr1, .error e)
        | (tr1, Option.none) => ({ m1 with active := false }, tr1, .ok ())
    else
      ({ m with active := false }, [], .ok ())

/-- `StateMachine.resume()` (`sm.py` lines 516-519).  Reads the never-
assigned attribute `_sm_call_actions_on_resume` first (AttributeError on an
unpatched machine).  The enter call happens while `active` is still false;
`active` is set to true only after the `if`, so an enter exception leaves
the machine inactive. -/
def resume (m : StateMachine) : PyResult Unit :=
  match m.onResume with
  | Option.none => (m, [], .error (.attributeError "_sm_call_actions_on_resume"))
  | some car =>
    if car && !m.active then
      match currentStateOf m with
      | Option.none => (m, [], .error (.attributeError "enter"))
      | some cur =>
        match callValue cur.enter with
        | (tr1, some e) => (m, tr1, .error e)
        | (tr1, Option.none) => ({ m with active := true }, tr1, .ok ())
    else
      ({ m with active := true }, [], .ok ())

/-- `StateMachine.process_event(event)` (`sm.py` lines 528-561).  Inactive
machines return `None` at once.  Otherwise the current state's
`get_transition` picks the transition; no transition returns `False`.  A
transition with a truthy destination runs, in order: the current state's
leave slot (truthiness-guarded attribute call), the transition's action
(`callable`-guarded, called with the event), the assignment
`current_state := to_state`, and the new current state's enter slot
(truthiness-guarded); then returns `True`.  A falsy destination runs only
the action and returns `True`.  An exception from any callback propagates
with everything later not run. -/
def process_event (m : StateMachine) (e : Event) : PyResult (Option Bool) :=
  if !m.active then (m, [], .ok Option.none)
  else
    match currentStateOf m with
    | Option.none => (m, [], .error (.attributeError "get_transition"))
    | some cur =>
      match cur.get_transition e with
      | Option.none => (m, [], .ok (some false))
      | some t =>
        if truthy t.to_state then
          match (if truthy cur.leave then callValue cur.leave else ([], Option.none)) with
          | (tr1, some ex) => (m, tr1, .error ex)
          | (tr1, Option.none) =>
            match (if isCallable t.action then callValue t.action else ([], Option.none)) with
            | (tr2, some ex) => (m, tr1 ++ tr2, .error ex)
            | (tr2, Option.none) =>
              match t.to_state with
              | .stateObj i _ _ =>
                let m2 : StateMachine := { m with currentId := some i }
                match currentStateOf m2 with
                | Option.none => (m2, tr1 ++ tr2, .error .danglingStateRef)
                | some dst =>
                  match (if truthy dst.enter then callValue dst.enter else ([], Option.none)) with
                  | (tr3, some ex) => (m2, tr1 ++ tr2 ++ tr3, .error ex)
                  | (tr3, Option.none) => (m2, tr1 ++ tr2 ++ tr3, .ok (some true))
              | _ => (m, tr1 ++ tr2, .error .danglingStateRef)
        else
          match (if isCallable t.action then callValue t.action else ([], Option.none)) with
          | (tr2, some ex) => (m, tr2, .error ex)
          | (tr2, Option.none) => (m, tr2, .ok (some true))

/-- Eligibility of a transition for an event, as `get_transition` actually
tests it: the event is an `isinstance` of the transition's event type, its
`match` accepts the transition's args, and the guard (if a callable one is
present) accepts the event. -/
def eligible (e : Event) (t : Transition) : Bool :=
  e.mro.contains t.event_type && e.matchFn t.args &&
    (!isCallable t.guard || guardApply t.guard e)

/-- Modelled from the spec's words for claim C4: the first-test is *kind
equality*, "event.kind == transition.event_kind" — the event's exact class
equals the transition's event type — followed by the same match and guard
tests.  To be compared with `State.get_transition`, whose first test is
`isinstance`. -/
def get_transition_kind_equality (s : State) (e : Event) : Option Transition :=
  s.transitions.find? (fun t =>
    (e.cls == t.event_type) && e.matchFn t.args &&
      (!isCallable t.guard || guardApply t.guard e))

/-- A builder-API call, for stating invariants over arbitrary build
sequences (claim C10). -/
inductive Op where
  | addState (name : String) (enter leave : PyVal) : Op
  | addTransition (srcRef : PyVal) (event_type : Nat) (args : List Arg)
      (kwTo kwAction kwGuard : PyVal) : Op

/-- Run one builder call; a raised error leaves the machine unchanged (both
`add_state` and `add_transition` mutate nothing before their checks pass). -/
def runOp (m : StateMachine) : Op → StateMachine
  | .addState name enter leave =>
    match add_state m name enter leave with
    | .ok (m', _) => m'
    | .error _ => m
  | .addTransition srcRef et args kwTo kwAction kwGuard =>
    match add_transition m srcRef et args kwTo kwAction kwGuard with
    | .ok (m', _) => m'
    | .error _ => m

/-- Run a sequence of builder calls. -/
def runOps (m : StateMachine) (ops : List Op) : StateMachine :=
  ops.foldl runOp m

/-- A destination value is either falsy (self-loop behaviour) or a
reference to a member of the given state list, matching it in object id,
canonical origin and name. -/
def resolvesIn (l : List State) (v : PyVal) : Bool :=
  !truthy v ||
    (match v with
     | .stateObj i o nm =>
       l.any (fun s => s.objId == i && s.original == o && s.name == nm)
     | _ => false)

/-- Every truthy stored destination of every transition of every state in
the list resolves to a member of the list. -/
def allResolve (l : List State) : Bool :=
  l.all (fun s => s.transitions.all (fun t => resolvesIn l t.to_state))

/-- Every truthy stored destination in the machine is a reference to one of
the machine's own member states. -/
def destsResolve (m : StateMachine) : Bool :=
  allResolve m.states

/-- Is an `Except` result a normal (non-raising) return? -/
def isOkE {α : Type} : Except PyErr α → Bool
  | .ok _ => true
  | .error _ => false

/-! ### Concrete fixtures used by witnesses and counterexamples -/

/-- A non-throwing leave callback (id 1). -/
def cbLeave : Cb := { id := 1, throws := false, ret := fun _ => true }

/-- A non-throwing transition action (id 2). -/
def cbAct : Cb := { id := 2, throws := false, ret := fun _ => true }

/-- A non-throwing enter callback (id 3). -/
def cbEnter : Cb := { id := 3, throws := false, ret := fun _ => true }

/-- A throwing leave callback (id 4). -/
def cbBoom : Cb := { id := 4, throws := true, ret := fun _ => true }

/-- Transition `a → b` on event class 10, with an action. -/
def tAB : Transition :=
  { event_type := 10, args := [], guard := .none, action := .cb cbAct,
    to_state := .stateObj 1 1 "b" }

/-- A self-loop transition on event class 11 with an action (no `to`). -/
def tSelf : Transition :=
  { event_type := 11, args := [], guard := .none, action := .cb cbAct,
    to_state := .none }

/-- State `a`: leave callback 1, a transition to `b` and a self-loop. -/
def stA : State :=
  { objId := 0, name := "a", enter := .none, leave := .cb cbLeave,
    original := 0, transitions := [tAB, tSelf] }

/-- State `b`: enter callback 3. -/
def stB : State :=
  { objId := 1, name := "b", enter := .cb cbEnter, leave := .none,
    original := 1, transitions := [] }

/-- A two-state machine in state `a`, used to exercise `process_event`. -/
def mW : StateMachine :=
  { states := [stA, stB], currentId := some 0, startId := some 0,
    active := true,
    callActionsFromReset := false, callActionsFromSuspend := false,
    callActionsFromResume := false,
    onReset := Option.none, onSuspend := Option.none, onResume := Option.none,
    nextId := 2 }

/-- An event of exactly class 10, matching everything. -/
def evW : Event := { cls := 10, mro := [10], matchFn := fun _ => true }

/-- State `a` with a *throwing* leave callback (id 4). -/
def stA4 : State := { stA with leave := .cb cbBoom }

/-- The machine `mW` with the throwing-leave variant of state `a`. -/
def mX : StateMachine := { mW with states := [stA4, stB] }

/-- Machine built through the API: `StateMachine(True, True)` plus two
states `a` and `b` added with `add_state`. -/
def mR : StateMachine :=
  runOps (StateMachine.init true true)
    [.addState "a" .none .none, .addState "b" .none .none]

/-- `mR` after the application flips `_sm_active` off by hand. -/
def mRi : StateMachine := { mR with active := false }

/-- Machine built through the API for claim C8: states `a`, `b`;
transitions `a → b` (event 5), a self-loop on `a` (event 6), a self-loop on
`b` (event 7). -/
def mC8 : StateMachine :=
  runOps (StateMachine.init true false)
    [.addState "a" .none .none, .addState "b" .none .none,
     .addTransition (.str "a") 5 [] (.str "b") .none .none,
     .addTransition (.str "a") 6 [] .none .none .none,
     .addTransition (.str "b") 7 [] .none .none .none]

/-- The `a → b` transition of `mC8` as stored after destination
resolution. -/
def tC8ab : Transition :=
  { event_type := 5, args := [], guard := .none, action := .none,
    to_state := .stateObj 1 1 "b" }

/-- The self-loop on `b` of `mC8`. -/
def tC8b : Transition :=
  { event_type := 7, args := [], guard := .none, action := .none,
    to_state := .none }

/-- One-state machine used by the C7 counterexample. -/
def mC7 : StateMachine :=
  runOps (StateMachine.init true false) [.addState "a" .none .none]

/-- Event fixture for the C4 counterexample: its exact class is 1, and it is
also an instance of class 2 (1 is declared as a subclass of 2). -/
def evC4 : Event := { cls := 1, mro := [1, 2], matchFn := fun _ => true }

/-- Transition fixture for the C4 counterexample: matches event *type* 2. -/
def tC4 : Transition :=
  { event_type := 2, args := [], guard := .none, action := .none,
    to_state := .none }

/-- State fixture owning `tC4`. -/
def sC4 : State :=
  { objId := 0, name := "a", enter := .none, leave := .none,
    original := 0, transitions := [tC4] }

/-- An event of exactly class 11, matching everything (fires `tSelf`). -/
def evLoop : Event := { cls := 11, mro := [11], matchFn := fun _ => true }

/-- An event of class 99 that no transition of `mW` matches. -/
def evNone : Event := { cls := 99, mro := [99], matchFn := fun _ => true }

/-- Template state for claim C9. -/
def tmpl9 : State := State.init 0 "s" .none .none

/-- First declarative instance of `tmpl9` (fresh object id 1). -/
def inst9a : State := instantiateState tmpl9 1

/-- Second declarative instance of `tmpl9` (fresh object id 2). -/
def inst9b : State := instantiateState tmpl9 2

/-- A machine owning the first instance of `tmpl9`. -/
def m9 : StateMachine :=
  { states := [inst9a], currentId := some 1, startId := some 1,
    active := true,
    callActionsFromReset := false, callActionsFromSuspend := false,
    callActionsFromResume := false,
    onReset := Option.none, onSuspend := Option.none, onResume := Option.none,
    nextId := 2 }

/-! ### Theorems for the claims -/

/-- The scan of `get_transition` — including the `continue` taken when a
guard fails — is first-match search for `eligible`. -/
lemma getTransitionAux_eq_find (e : Event) (l : List Transition) :
    getTransitionAux e l = l.find? (eligible e) := by
  induction l with
  | nil => rfl
  | cons t rest ih =>
    rw [List.find?_cons]
    cases h1 : (e.mro.contains t.event_type && e.matchFn t.args) with
    | false =>
      simp only [getTransitionAux, eligible, h1, Bool.false_and, cond_false, ih]
    | true =>
      cases h2 : isCallable t.guard with
      | false =>
        simp only [getTransitionAux, eligible, h1, h2, Bool.true_and,
          Bool.not_false, Bool.true_or, cond_true, cond_false]
      | true =>
        cases h3 : guardApply t.guard e with
        | false =>
          simp only [getTransitionAux, eligible, h1, h2, h3, Bool.true_and,
            Bool.not_true, Bool.false_or, cond_true, cond_false, ih]
        | true =>
          simp only [getTransitionAux, eligible, h1, h2, h3, Bool.true_and,
            Bool.not_true, Bool.false_or, cond_true]

/-- C4 (amended): `get_transition` returns exactly the first transition, in
insertion order, that passes the `isinstance` test on the event type, the
event's `match`, and the guard when a callable one is present; a failing
guard only moves the scan to the next transition, and a later eligible
transition is never chosen ahead of an earlier one (first-match semantics
of `List.find?`). -/
theorem C4_get_transition_first_match (s : State) (e : Event) :
    s.get_transition e = s.transitions.find? (eligible e) :=
  getTransitionAux_eq_find e s.transitions

/-- C4 witness: first-match semantics evaluated on the concrete state `a`
of the `process_event` fixture. -/
theorem C4_get_transition_first_match_witness :
    State.get_transition stA evW = stA.transitions.find? (eligible evW) :=
  C4_get_transition_first_match stA evW

/-- C4 (counterexample to the claim as stated): the first test of
`get_transition` is `isinstance`, not kind equality.  For an event of exact
class 1 that is also an instance of class 2, and a state whose only
transition expects event type 2, `get_transition` returns that transition
even though the event's kind 1 differs from the transition's event kind 2;
the spec-words scan `get_transition_kind_equality` returns nothing. -/
theorem C4_kind_equality_counterexample :
    State.get_transition sC4 evC4 = some tC4 ∧
    (evC4.cls == tC4.event_type) = false ∧
    get_transition_kind_equality sC4 evC4 = Option.none :=
  ⟨rfl, rfl, rfl⟩

/-- C2 (code bug): `reset()` cannot run.  On a machine built by
`StateMachine(True, True)` with two states (so that the claim's premises —
active, `call_actions` true, current possibly differing from start — are
set up as far as the constructor allows), `reset` raises `AttributeError`
immediately and changes nothing, because it reads
`_sm_call_actions_on_reset` while `__init__` only ever assigns
`_sm_call_actions_from_reset` (the read attribute is not among the
attributes `__init__` creates).  Even with the attribute patched in by
hand (`onReset := some true`) the claimed sequence does not run: the
branch calls `self._sm_current_state.leave()` unguarded, which raises
`TypeError` when the state has no leave callback, aborting with the
machine left *inactive* (last conjunct). -/
theorem C2_reset_attribute_error :
    reset mR = (mR, [], .error (.attributeError "_sm_call_actions_on_reset")) ∧
    mR.callActionsFromReset = true ∧ mR.active = true ∧
    "_sm_call_actions_on_reset" ∉ StateMachine.initAttrNames ∧
    reset { mR with currentId := some 1, onReset := some true }
      = ({ mR with currentId := some 1, onReset := some true, active := false },
         [], .error .typeErrorNotCallable) :=
  ⟨rfl, rfl, rfl, by decide, rfl⟩

/-- C3 (code bug): `suspend()` and `resume()` cannot run their documented
protocol.  `suspend` on the active two-state machine `mR` raises
`AttributeError` reading the never-assigned `_sm_call_actions_on_suspend`
and leaves the machine *active* (so it does not "unconditionally end
inactive"); `resume` on the manually-deactivated `mRi` likewise raises
reading `_sm_call_actions_on_resume` and leaves the machine *inactive*.
Moreover `suspend`'s action branch is guarded by `... and not
self._sm_active`, the opposite of its docstring: with the attribute
patched to `True` on the *active* machine, `suspend` runs no leave at all
(fifth conjunct), and on an *inactive* machine it attempts the leave —
raising `TypeError` here because the state has no leave callback (sixth
conjunct). -/
theorem C3_suspend_resume_attribute_error :
    suspend mR = (mR, [], .error (.attributeError "_sm_call_actions_on_suspend")) ∧
    (suspend mR).1.active = true ∧
    resume mRi = (mRi, [], .error (.attributeError "_sm_call_actions_on_resume")) ∧
    (resume mRi).1.active = false ∧
    suspend { mR with onSuspend := some true }
      = ({ mR with onSuspend := some true, active := false }, [], .ok ()) ∧
    suspend { mR with onSuspend := some true, active := false }
      = ({ mR with onSuspend := some true, active := false }, [],
         .error .typeErrorNotCallable) ∧
    "_sm_call_actions_on_suspend" ∉ StateMachine.initAttrNames ∧
    "_sm_call_actions_on_resume" ∉ StateMachine.initAttrNames :=
  ⟨rfl, rfl, rfl, rfl, rfl, rfl, by decide, by decide⟩

/-- C5 (code bug): because `State.__init__` assigns `self.enter = enter`
and `self.leave = leave`, the instance attributes shadow the guarded
`enter`/`leave` methods of the class, so invoking `s.enter()` / `s.leave()`
on a state whose callback is absent calls `None` and raises `TypeError`
instead of being a no-op.  Moreover nothing checks callability at build
time: `add_state` happily accepts non-callable truthy enter/leave values,
whose error then surfaces only when the slot is invoked. -/
theorem C5_enter_leave_shadowing :
    callValue (State.init 0 "a" .none .none).enter
      = ([], some .typeErrorNotCallable) ∧
    callValue (State.init 0 "a" .none .none).leave
      = ([], some .typeErrorNotCallable) ∧
    isOkE (add_state (StateMachine.init true false) "nc" (.int 5) (.int 6))
      = true ∧
    callValue (.int 5) = ([], some .typeErrorNotCallable) :=
  ⟨rfl, rfl, rfl, rfl⟩

/-- C8 (code bug on the error path; filter behaviour as claimed): on the
API-built machine `mC8`, `transitions_to "b"` yields exactly the explicit
transition `a → b` and the self-loop owned by `b`, in declaration order,
and `transitions_to "a"` yields only the self-loop owned by `a`; but when a
referenced state does not resolve, all three query iterators raise
`NameError` — the `raise StateNotFound` statements name an exception class
that is never defined in the module — rather than a `StateNotFound`
error. -/
theorem C8_transition_queries :
    transitions_to mC8 (.str "b") = .ok [tC8ab, tC8b] ∧
    transitions_to mC8 (.str "a")
      = .ok [{ event_type := 6, args := [], guard := .none, action := .none,
               to_state := .none }] ∧
    transitions_from mC8 (.str "zzz") = .error (.nameError "StateNotFound") ∧
    transitions_to mC8 (.str "zzz") = .error (.nameError "StateNotFound") ∧
    transitions_between mC8 (.str "a") (.str "zzz")
      = .error (.nameError "StateNotFound") ∧
    transitions_between mC8 (.str "zzz") (.str "b")
      = .error (.nameError "StateNotFound") :=
  ⟨rfl, rfl, rfl, rfl, rfl, rfl⟩

/-- C9 (code bug on the end-to-end path; identity model as claimed): state
equality is exactly identity of canonical origins; a fresh state is its own
origin; the two declarative instances `inst9a`, `inst9b` of the template
`tmpl9` (each a deep copy whose `original` is re-pointed at the template,
as in `statemachine.__init__`) are distinct objects that compare equal to
the template and to each other, and `find_state` on a machine owning
`inst9a` resolves both the sibling instance and the template to `inst9a`.
The end-to-end declarative path cannot actually run, however:
`statemachine.__init__` reads the attribute `states` (and `start_state`,
`current_state`), while the base `StateMachine.__init__` assigns only the
`_sm_`-prefixed names, so instantiation raises `AttributeError` — the last
conjunct records that the read attribute is not among those assigned. -/
theorem C9_canonical_identity :
    (∀ a b : State, State.eq a b = true ↔ a.original = b.original) ∧
    (State.init 7 "f" .none .none).original = 7 ∧
    State.eq inst9a tmpl9 = true ∧
    State.eq inst9b tmpl9 = true ∧
    State.eq inst9a inst9b = true ∧
    inst9a.objId ≠ inst9b.objId ∧
    State.eq (State.init 3 "x" .none .none) (State.init 4 "x" .none .none)
      = false ∧
    find_state m9 (stateRef inst9b) = some inst9a ∧
    find_state m9 (stateRef tmpl9) = some inst9a ∧
    "states" ∉ StateMachine.initAttrNames :=
  ⟨fun a b => by simp [State.eq], rfl, rfl, rfl, rfl, by decide, rfl, rfl,
   rfl, by decide⟩

/-- An inactive machine drops the event and returns `None`. -/
lemma processEvent_inactive (m : StateMachine) (e : Event)
    (h : m.active = false) :
    process_event m e = (m, [], .ok Option.none) := by
  simp [process_event, h]

/-- No matching transition: return `False`, run nothing, change nothing. -/
lemma processEvent_noMatch (m : StateMachine) (e : Event) (cur : State)
    (ha : m.active = true) (hc : currentStateOf m = some cur)
    (ht : cur.get_transition e = Option.none) :
    process_event m e = (m, [], .ok (some false)) := by
  simp [process_event, ha, hc, ht]

/-- A matching destination-less transition runs only its action. -/
lemma processEvent_selfLoop (m : StateMachine) (e : Event) (cur : State)
    (t : Transition) (ha : m.active = true) (hc : currentStateOf m = some cur)
    (ht : cur.get_transition e = some t) (hto : truthy t.to_state = false)
    (hact : okAct t.action = true) :
    process_event m e = (m, cbTrace t.action, .ok (some true)) := by
  cases hav : t.action <;>
    simp_all [process_event, callValue, isCallable, cbTrace, okAct]

/-- A matching transition with a resolvable destination fires the full
leave / action / reassignment / enter sequence. -/
lemma processEvent_fire (m : StateMachine) (e : Event) (cur : State)
    (t : Transition) (i o : Nat) (nm : String) (dst : State)
    (ha : m.active = true) (hc : currentStateOf m = some cur)
    (ht : cur.get_transition e = some t)
    (hto : t.to_state = .stateObj i o nm)
    (hdst : lookupState m i = some dst)
    (hl : okCb cur.leave = true) (hact : okAct t.action = true)
    (hent : okCb dst.enter = true) :
    process_event m e =
      ({ m with currentId := some i },
       cbTrace cur.leave ++ cbTrace t.action ++ cbTrace dst.enter,
       .ok (some true)) := by
  cases hlv : cur.leave <;> cases hac : t.action <;> cases hen : dst.enter <;>
    simp_all [process_event, callValue, isCallable, truthy, cbTrace, okCb,
      okAct, currentStateOf, lookupState]

/-- C1: `process_event` on an inactive machine returns `None` immediately
with nothing run and nothing changed; with no matching transition it
returns `False` likewise; a matching transition with a (resolvable) truthy
destination runs exactly the current state's leave slot, then the
transition's action with the event, then reassigns the current state to the
destination, then runs the destination's enter slot, and returns `True`;
and a matching destination-less transition runs only its action, leaves the
machine untouched, and returns `True`.  (The leave/action/enter slots are
assumed well-behaved — absent or non-throwing callables — as the claim
presupposes actions that run.) -/
theorem C1_process_event_dispatch (m : StateMachine) (e : Event) :
    (m.active = false → process_event m e = (m, [], .ok Option.none)) ∧
    (∀ cur : State, m.active = true → currentStateOf m = some cur →
      (cur.get_transition e = Option.none →
        process_event m e = (m, [], .ok (some false))) ∧
      (∀ (t : Transition) (i o : Nat) (nm : String) (dst : State),
        cur.get_transition e = some t →
        t.to_state = .stateObj i o nm →
        lookupState m i = some dst →
        okCb cur.leave = true → okAct t.action = true →
        okCb dst.enter = true →
        process_event m e =
          ({ m with currentId := some i },
           cbTrace cur.leave ++ cbTrace t.action ++ cbTrace dst.enter,
           .ok (some true))) ∧
      (∀ t : Transition, cur.get_transition e = some t →
        truthy t.to_state = false → okAct t.action = true →
        process_event m e = (m, cbTrace t.action, .ok (some true)))) :=
  ⟨fun h => processEvent_inactive m e h,
   fun cur ha hc =>
     ⟨fun ht => processEvent_noMatch m e cur ha hc ht,
      fun t i o nm dst ht hto hdst hl hact hent =>
        processEvent_fire m e cur t i o nm dst ha hc ht hto hdst hl hact hent,
      fun t ht hto hact => processEvent_selfLoop m e cur t ha hc ht hto hact⟩⟩

/-- C1 witness: on the concrete machine `mW` in state `a`, the class-10
event fires `a → b` running leave 1, action 2, enter 3 and moving to `b`;
the class-11 event fires the self-loop running only action 2; the class-99
event is ignored with `False`; the deactivated machine returns `None`. -/
theorem C1_process_event_dispatch_witness :
    process_event mW evW
      = ({ mW with currentId := some 1 }, [1, 2, 3], .ok (some true)) ∧
    process_event mW evLoop = (mW, [2], .ok (some true)) ∧
    process_event mW evNone = (mW, [], .ok (some false)) ∧
    process_event { mW with active := false } evW
      = ({ mW with active := false }, [], .ok Option.none) :=
  ⟨((C1_process_event_dispatch mW evW).2 stA rfl rfl).2.1 tAB 1 1 "b" stB
      rfl rfl rfl rfl rfl rfl,
   ((C1_process_event_dispatch mW evLoop).2 stA rfl rfl).2.2 tSelf
      rfl rfl rfl,
   ((C1_process_event_dispatch mW evNone).2 stA rfl rfl).1 rfl,
   (C1_process_event_dispatch { mW with active := false } evW).1 rfl⟩

/-- C6: if the current state's leave callback raises while a transition
with a truthy destination is being fired, `process_event` propagates the
exception to its caller, the trace contains only that leave call, and the
machine — in particular `current_state` — is unchanged: the transition's
action, the state-pointer update, and the destination's enter action do not
run. -/
theorem C6_leave_exception_aborts (m : StateMachine) (e : Event)
    (cur : State) (t : Transition) (c : Cb)
    (ha : m.active = true) (hc : currentStateOf m = some cur)
    (ht : cur.get_transition e = some t) (hto : truthy t.to_state = true)
    (hlv : cur.leave = .cb c) (hth : c.throws = true) :
    process_event m e = (m, [c.id], .error (.callbackExc c.id)) := by
  have h1 : truthy (PyVal.cb c) = true := rfl
  simp [process_event, ha, hc, ht, hto, hlv, h1, callValue, hth]

/-- C6 witness: on `mX` (state `a` with throwing leave callback 4), the
class-10 event propagates the exception, only callback 4 ran, and the
machine still has current state `a`. -/
theorem C6_leave_exception_aborts_witness :
    process_event mX evW = (mX, [4], .error (.callbackExc 4)) :=
  C6_leave_exception_aborts mX evW stA4 tAB cbBoom rfl rfl rfl rfl rfl rfl

/-- The build-time configuration errors of the engine. -/
def isBuilderErr : PyErr → Bool
  | .stateUnknown => true
  | .stateAlreadyExists => true
  | .transitionBadAction => true
  | .transitionBadGuard => true
  | _ => false

/-- Invoking a stored slot value never raises a build-time configuration
error: only `TypeError` or the callback's own exception can come out. -/
lemma callValue_not_builder (v : PyVal) (tr : List Nat) (er : PyErr)
    (h : callValue v = (tr, some er)) : isBuilderErr er = false := by
  cases v with
  | cb c =>
    cases hth : c.throws with
    | false => simp [callValue, hth] at h
    | true =>
      simp [callValue, hth] at h
      rcases h with ⟨h1, h2⟩
      subst h2
      rfl
  | none =>
    simp [callValue] at h
    rcases h with ⟨h1, h2⟩
    subst h2
    rfl
  | int n =>
    simp [callValue] at h
    rcases h with ⟨h1, h2⟩
    subst h2
    rfl
  | str s =>
    simp [callValue] at h
    rcases h with ⟨h1, h2⟩
    subst h2
    rfl
  | stateObj i o nm =>
    simp [callValue] at h
    rcases h with ⟨h1, h2⟩
    subst h2
    rfl

/-- A truthiness/`callable`-guarded slot call never raises a build-time
configuration error. -/
lemma guardedCall_not_builder (v : PyVal) (b : Bool) (tr : List Nat)
    (er : PyErr)
    (h : (if b then callValue v else ([], Option.none)) = (tr, some er)) :
    isBuilderErr er = false := by
  cases b with
  | false => simp at h
  | true =>
    simp only [if_true] at h
    exact callValue_not_builder v tr er h

/-- Whatever `process_event` raises, it is never one of the build-time
configuration errors (`StateUnknown`, `StateAlreadyExists`,
`TransitionBadAction`, `TransitionBadGuard`). -/
lemma processEvent_not_builder (m : StateMachine) (e : Event) (er : PyErr)
    (h : (process_event m e).2.2 = .error er) : isBuilderErr er = false := by
  unfold process_event at h
  split at h
  · simp at h
  · split at h
    · simp at h
      subst h
      rfl
    · split at h
      · simp at h
      · split at h
        · -- truthy destination: leave, action, reassignment, enter
          split at h
          · rename_i heq
            simp at h
            subst h
            exact guardedCall_not_builder _ _ _ _ heq
          · split at h
            · rename_i heq
              simp at h
              subst h
              exact guardedCall_not_builder _ _ _ _ heq
            · split at h
              · dsimp only at h
                split at h
                · simp at h
                  subst h
                  rfl
                · split at h
                  · rename_i heq
                    simp at h
                    subst h
                    exact guardedCall_not_builder _ _ _ _ heq
                  · simp at h
              · simp at h
                subst h
                rfl
        · -- falsy destination: action only
          split at h
          · rename_i heq
            simp at h
            subst h
            exact guardedCall_not_builder _ _ _ _ heq
          · simp at h

/-- C7 (counterexample to the claim as stated): the validation is guarded
by Python truthiness, so a *falsy* supplied value slips through every
check.  An empty-string destination is supplied and does not resolve to any
state of the machine, yet `add_transition` succeeds (building a self-loop);
a supplied non-callable falsy action (`0`) and guard (`0`) likewise raise
nothing. -/
theorem C7_falsy_kwargs_counterexample :
    find_state mC7 (.str "") = Option.none ∧
    isOkE (add_transition mC7 (.str "a") 5 [] (.str "") .none .none)
      = true ∧
    isCallable (.int 0) = false ∧
    isOkE (add_transition mC7 (.str "a") 5 [] .none (.int 0) .none)
      = true ∧
    isOkE (add_transition mC7 (.str "a") 5 [] .none .none (.int 0))
      = true :=
  ⟨rfl, rfl, rfl, rfl, rfl⟩

/-- C7 (amended): `add_transition` fails at build time with `StateUnknown`
when a *truthy* supplied destination does not resolve to a state of this
machine, with `TransitionBadAction` when a truthy supplied action is not
callable, and with `TransitionBadGuard` when a truthy supplied guard is not
callable (falsy supplied values are treated as absent and pass unchecked);
the three errors are pairwise distinct; and `process_event` never raises
any build-time configuration error. -/
theorem C7_build_time_validation :
    (∀ (m : StateMachine) (srcRef : PyVal) (et : Nat) (args : List Arg)
        (kwTo kwAction kwGuard : PyVal) (fs : State),
      find_state m srcRef = some fs → truthy kwTo = true →
      find_state m kwTo = Option.none →
      add_transition m srcRef et args kwTo kwAction kwGuard
        = .error .stateUnknown) ∧
    (∀ (m : StateMachine) (srcRef : PyVal) (et : Nat) (args : List Arg)
        (kwTo kwAction kwGuard : PyVal) (fs : State),
      find_state m srcRef = some fs →
      (truthy kwTo = true → (find_state m kwTo).isSome = true) →
      truthy kwAction = true → isCallable kwAction = false →
      add_transition m srcRef et args kwTo kwAction kwGuard
        = .error .transitionBadAction) ∧
    (∀ (m : StateMachine) (srcRef : PyVal) (et : Nat) (args : List Arg)
        (kwTo kwAction kwGuard : PyVal) (fs : State),
      find_state m srcRef = some fs →
      (truthy kwTo = true → (find_state m kwTo).isSome = true) →
      (truthy kwAction = true → isCallable kwAction = true) →
      truthy kwGuard = true → isCallable kwGuard = false →
      add_transition m srcRef et args kwTo kwAction kwGuard
        = .error .transitionBadGuard) ∧
    (isBuilderErr .stateUnknown = true ∧
     isBuilderErr .transitionBadAction = true ∧
     isBuilderErr .transitionBadGuard = true ∧
     PyErr.stateUnknown ≠ PyErr.transitionBadAction ∧
     PyErr.stateUnknown ≠ PyErr.transitionBadGuard ∧
     PyErr.transitionBadAction ≠ PyErr.transitionBadGuard) ∧
    (∀ (m : StateMachine) (e : Event) (er : PyErr),
      (process_event m e).2.2 = .error er → isBuilderErr er = false) := by
  refine ⟨?_, ?_, ?_, by decide, processEvent_not_builder⟩
  · intro m srcRef et args kwTo kwAction kwGuard fs hsrc htt hnone
    simp [add_transition, hsrc, htt, hnone]
  · intro m srcRef et args kwTo kwAction kwGuard fs hsrc hres hA hC
    cases htt : truthy kwTo with
    | false =>
      simp [add_transition, hsrc, htt, Transition.build, hA, hC]
    | true =>
      obtain ⟨d, hd⟩ := Option.isSome_iff_exists.mp (hres htt)
      have h1 : truthy (stateRef d) = true := rfl
      have h2 : isStateObj (stateRef d) = true := rfl
      simp [add_transition, hsrc, htt, hd, Transition.build, h1, h2, hA, hC]
  · intro m srcRef et args kwTo kwAction kwGuard fs hsrc hres hAok hG hCg
    have hact : (truthy kwAction && !isCallable kwAction) = false := by
      cases hA : truthy kwAction with
      | false => simp
      | true => simp [hAok hA]
    cases htt : truthy kwTo with
    | false =>
      simp [add_transition, hsrc, htt, Transition.build, hact, hG, hCg]
    | true =>
      obtain ⟨d, hd⟩ := Option.isSome_iff_exists.mp (hres htt)
      have h1 : truthy (stateRef d) = true := rfl
      have h2 : isStateObj (stateRef d) = true := rfl
      simp [add_transition, hsrc, htt, hd, Transition.build, h1, h2, hact,
        hG, hCg]

/-- C7 witness: on the one-state machine `mC7`, an unresolvable truthy
destination, a truthy non-callable action, and a truthy non-callable guard
each raise their distinct build-time error; and the error `process_event`
raises on a machine with no states is not a build-time one. -/
theorem C7_build_time_validation_witness :
    add_transition mC7 (.str "a") 5 [] (.str "zzz") .none .none
      = .error .stateUnknown ∧
    add_transition mC7 (.str "a") 5 [] (.str "a") (.int 5) .none
      = .error .transitionBadAction ∧
    add_transition mC7 (.str "a") 5 [] (.str "a") (.cb cbAct) (.int 7)
      = .error .transitionBadGuard ∧
    isBuilderErr (.attributeError "get_transition") = false :=
  ⟨C7_build_time_validation.1 mC7 (.str "a") 5 [] (.str "zzz") .none .none
      (State.init 0 "a" .none .none) rfl rfl rfl,
   C7_build_time_validation.2.1 mC7 (.str "a") 5 [] (.str "a") (.int 5)
      .none (State.init 0 "a" .none .none) rfl (fun _ => rfl) rfl rfl,
   C7_build_time_validation.2.2.1 mC7 (.str "a") 5 [] (.str "a")
      (.cb cbAct) (.int 7) (State.init 0 "a" .none .none) rfl
      (fun _ => rfl) (fun _ => rfl) rfl rfl,
   C7_build_time_validation.2.2.2.2 (StateMachine.init true false) evNone
      (.attributeError "get_transition") rfl⟩

/-- `l'` contains, for every member of `l`, a member with the same object
id, canonical origin and name (the immutable identity of a state). -/
def fieldsPreserved (l l' : List State) : Prop :=
  ∀ s ∈ l, ∃ s' ∈ l',
    s'.objId = s.objId ∧ s'.original = s.original ∧ s'.name = s.name

/-- Resolution of a destination value survives any identity-preserving
evolution of the state list. -/
lemma resolvesIn_mono {l l' : List State} (h : fieldsPreserved l l')
    (v : PyVal) (hv : resolvesIn l v = true) : resolvesIn l' v = true := by
  cases v with
  | stateObj i o nm =>
    simp only [resolvesIn, truthy, Bool.not_true, Bool.false_or,
      List.any_eq_true] at hv ⊢
    obtain ⟨s, hs, hp⟩ := hv
    obtain ⟨s', hs', e1, e2, e3⟩ := h s hs
    refine ⟨s', hs', ?_⟩
    simpa [e1, e2, e3] using hp
  | none => exact hv
  | int n => exact hv
  | str s => exact hv
  | cb c => exact hv

/-- Appending a state preserves every existing member's identity. -/
lemma fieldsPreserved_append (l : List State) (st : State) :
    fieldsPreserved l (l ++ [st]) :=
  fun s hs => ⟨s, by simp [hs], rfl, rfl, rfl⟩

/-- Appending a transition to the state with a given object id (the map
performed by `appendTransition`) preserves every member's identity. -/
lemma fieldsPreserved_appendTransition (l : List State) (i : Nat)
    (t : Transition) :
    fieldsPreserved l (l.map (fun s =>
      if s.objId == i then { s with transitions := s.transitions ++ [t] }
      else s)) := by
  intro s hs
  refine ⟨_, List.mem_map_of_mem _ hs, ?_, ?_, ?_⟩ <;> split <;> rfl

/-- Adding a transition-free state to a fully-resolving list keeps it fully
resolving. -/
lemma allResolve_append (l : List State) (st : State)
    (hl : allResolve l = true) (hst : st.transitions = []) :
    allResolve (l ++ [st]) = true := by
  rw [allResolve, List.all_eq_true]
  intro s hs
  rcases List.mem_append.mp hs with hs | hs
  · rw [List.all_eq_true]
    intro t ht
    exact resolvesIn_mono (fieldsPreserved_append l st) _
      (List.all_eq_true.mp
        (List.all_eq_true.mp hl s hs) t ht)
  · have : s = st := by simpa using hs
    subst this
    rw [hst]
    rfl

/-- Appending a transition whose destination resolves keeps the list fully
resolving. -/
lemma allResolve_appendTransition (l : List State) (i : Nat) (t : Transition)
    (hl : allResolve l = true) (ht : resolvesIn l t.to_state = true) :
    allResolve (l.map (fun s =>
      if s.objId == i then { s with transitions := s.transitions ++ [t] }
      else s)) = true := by
  have hP := fieldsPreserved_appendTransition l i t
  rw [allResolve, List.all_eq_true]
  intro s' hs'
  obtain ⟨s, hs, rfl⟩ := List.mem_map.mp hs'
  rw [List.all_eq_true]
  intro tt htt
  have hold : ∀ u ∈ s.transitions, resolvesIn l u.to_state = true :=
    fun u hu => List.all_eq_true.mp (List.all_eq_true.mp hl s hs) u hu
  by_cases hc : (s.objId == i) = true
  · rw [if_pos hc] at htt
    rcases List.mem_append.mp htt with htt | htt
    · exact resolvesIn_mono hP _ (hold tt htt)
    · have : tt = t := by simpa using htt
      subst this
      exact resolvesIn_mono hP _ ht
  · rw [if_neg hc] at htt
    exact resolvesIn_mono hP _ (hold tt htt)

/-- A state returned by `find_state` is a member of the machine. -/
lemma find_state_mem (m : StateMachine) (ref : PyVal) (s : State)
    (h : find_state m ref = some s) : s ∈ m.states := by
  unfold find_state at h
  split at h <;> exact List.mem_of_find?_eq_some h

/-- A transition successfully built by `Transition.build` stores the `to`
keyword it was given as its destination. -/
lemma Transition.build_to_state (et : Nat) (args : List Arg)
    (kwTo kwAction kwGuard : PyVal) (t : Transition)
    (h : Transition.build et args kwTo kwAction kwGuard = .ok t) :
    t.to_state = kwTo := by
  unfold Transition.build at h
  split at h
  · cases h
  · split at h
    · cases h
    · split at h
      · cases h
      · cases h
        rfl

/-- A successful `add_state` appends one transition-free state. -/
lemma add_state_ok_states (m : StateMachine) (name : String)
    (enter leave : PyVal) (m' : StateMachine) (st : State)
    (h : add_state m name enter leave = .ok (m', st)) :
    ∃ st2 : State, st2.transitions = [] ∧ m'.states = m.states ++ [st2] := by
  unfold add_state at h
  split at h
  · cases h
  · dsimp only at h
    injection h with h
    injection h with h1 h2
    subst h1
    refine ⟨State.init m.nextId name enter leave, rfl, ?_⟩
    split <;> rfl

/-- A successful `add_transition` stores a destination resolving in the
machine's current states, and mutates the machine only by appending the
transition to the state with the source's object id. -/
lemma add_transition_ok (m : StateMachine) (srcRef : PyVal) (et : Nat)
    (args : List Arg) (kwTo kwAction kwGuard : PyVal)
    (m' : StateMachine) (t : Transition)
    (h : add_transition m srcRef et args kwTo kwAction kwGuard
      = .ok (m', t)) :
    resolvesIn m.states t.to_state = true ∧
    ∃ i, m'.states = m.states.map (fun s =>
      if s.objId == i then { s with transitions := s.transitions ++ [t] }
      else s) := by
  unfold add_transition at h
  split at h
  · cases h
  · rename_i fs hfs
    dsimp only at h
    split at h
    · cases h
    · rename_i kwTo' hkw
      split at h
      · cases h
      · rename_i t0 htb
        injection h with h
        injection h with h1 h2
        subst h1
        subst h2
        constructor
        · rw [Transition.build_to_state _ _ _ _ _ _ htb]
          by_cases htt : truthy kwTo = true
          · rw [if_pos htt] at hkw
            split at hkw
            · cases hkw
            · rename_i d hd
              injection hkw with hkw
              subst hkw
              have hdmem := find_state_mem m kwTo d hd
              simp only [stateRef, resolvesIn, truthy, Bool.not_true,
                Bool.false_or, List.any_eq_true]
              exact ⟨d, hdmem, by simp⟩
          · rw [if_neg htt] at hkw
            injection hkw with hkw
            subst hkw
            have hf : truthy kwTo = false := by
              revert htt
              cases truthy kwTo <;> simp
            simp [resolvesIn, hf]
        · exact ⟨fs.objId, rfl⟩

/-- One builder call preserves the destination-resolution invariant. -/
lemma destsResolve_runOp (m : StateMachine) (op : Op)
    (hm : destsResolve m = true) : destsResolve (runOp m op) = true := by
  cases op with
  | addState name enter leave =>
    cases hres : add_state m name enter leave with
    | error e =>
      dsimp only [runOp]
      rw [hres]
      exact hm
    | ok p =>
      obtain ⟨m', st⟩ := p
      dsimp only [runOp]
      rw [hres]
      obtain ⟨st2, h1, h2⟩ := add_state_ok_states m name enter leave m' st hres
      show allResolve m'.states = true
      rw [h2]
      exact allResolve_append _ _ hm h1
  | addTransition srcRef et args kwTo kwAction kwGuard =>
    cases hres : add_transition m srcRef et args kwTo kwAction kwGuard with
    | error e =>
      dsimp only [runOp]
      rw [hres]
      exact hm
    | ok p =>
      obtain ⟨m', t⟩ := p
      dsimp only [runOp]
      rw [hres]
      obtain ⟨h1, i, h2⟩ :=
        add_transition_ok m srcRef et args kwTo kwAction kwGuard m' t hres
      show allResolve m'.states = true
      rw [h2]
      exact allResolve_appendTransition _ _ _ hm h1

/-- C10: after any sequence of `add_state`/`add_transition` calls on a
freshly constructed machine, every stored truthy destination references one
of that machine's own member states (same object id, canonical origin and
name): `add_transition` resolves the supplied destination through
`find_state` against the machine's states and replaces names and foreign
state values by the machine's own member before the transition is built. -/
theorem C10_destinations_are_members (a ca : Bool) (ops : List Op) :
    destsResolve (runOps (StateMachine.init a ca) ops) = true := by
  suffices h : ∀ m, destsResolve m = true →
      destsResolve (runOps m ops) = true from h _ rfl
  induction ops with
  | nil => exact fun m hm => hm
  | cons op rest ih => exact fun m hm => ih _ (destsResolve_runOp m op hm)

/-- C10 witness: the invariant evaluated on the concrete build sequence of
the five-call machine `mC8`, whose `a → b` transition was declared with the
string destination `"b"` and stored as a reference to the member state. -/
theorem C10_destinations_are_members_witness : destsResolve mC8 = true :=
  C10_destinations_are_members true false
    [.addState "a" .none .none, .addState "b" .none .none,
     .addTransition (.str "a") 5 [] (.str "b") .none .none,
     .addTransition (.str "a") 6 [] .none .none .none,
     .addTransition (.str "b") 7 [] .none .none .none]

end PySM
